import Mathlib

/-!
Shallow embedding of the analysis core of `Stock-MF-Calc.py` (single-file
Streamlit app "Equity & Mutual Fund Analyzer").

Conventions of the embedding:
* Python/numpy floating-point values are modelled by `PyVal`: a finite value
  carries an exact rational, and the special values `inf`, `ninf`, `nan`
  model the IEEE-754 specials that numpy produces (division by zero yields
  a signed infinity or NaN, never an exception; every comparison against
  NaN is `false`).  Exact rationals stand in for binary floats: the claims
  under study depend only on order relations and on exact zero tests, which
  the rational embedding reproduces faithfully.
* pandas dates are modelled as integer day numbers; `pd.DateOffset(years=k)`
  is modelled as `k * 365` days (no claim depends on calendar-leap details).
* `dict.get` / missing upstream fields are modelled by `Option`.
-/

namespace StockMF

/-- Model of a numpy/Python float: an exact finite value, a signed
infinity, or NaN. -/
inductive PyVal where
  | val (q : ℚ)
  | inf
  | ninf
  | nan
  deriving DecidableEq, Repr

/-- IEEE-754 strict less-than on floats: any comparison with NaN is false. -/
def pyLt : PyVal → PyVal → Bool
  | .val a, .val b => decide (a < b)
  | .val _, .inf => true
  | .ninf, .val _ => true
  | .ninf, .inf => true
  | _, _ => false

/-- IEEE-754 equality on floats: NaN is not equal to anything. -/
def pyEq : PyVal → PyVal → Bool
  | .val a, .val b => decide (a = b)
  | .inf, .inf => true
  | .ninf, .ninf => true
  | _, _ => false

/-- IEEE-754 less-or-equal. -/
def pyLe (a b : PyVal) : Bool := pyLt a b || pyEq a b

/-- IEEE-754 strict greater-than. -/
def pyGt (a b : PyVal) : Bool := pyLt b a

/-- IEEE-754 greater-or-equal. -/
def pyGe (a b : PyVal) : Bool := pyLe b a

/-- Float subtraction with the special values numpy produces. -/
def pySub : PyVal → PyVal → PyVal
  | .nan, _ => .nan
  | _, .nan => .nan
  | .val a, .val b => .val (a - b)
  | .inf, .val _ => .inf
  | .ninf, .val _ => .ninf
  | .val _, .inf => .ninf
  | .val _, .ninf => .inf
  | .inf, .inf => .nan
  | .ninf, .ninf => .nan
  | .inf, .ninf => .inf
  | .ninf, .inf => .ninf

/-- Float multiplication with the special values numpy produces. -/
def pyMul : PyVal → PyVal → PyVal
  | .nan, _ => .nan
  | _, .nan => .nan
  | .val a, .val b => .val (a * b)
  | .val a, .inf => if 0 < a then .inf else if a < 0 then .ninf else .nan
  | .inf, .val b => if 0 < b then .inf else if b < 0 then .ninf else .nan
  | .val a, .ninf => if 0 < a then .ninf else if a < 0 then .inf else .nan
  | .ninf, .val b => if 0 < b then .ninf else if b < 0 then .inf else .nan
  | .inf, .inf => .inf
  | .inf, .ninf => .ninf
  | .ninf, .inf => .ninf
  | .ninf, .ninf => .inf

/-- Float division: numpy turns division by zero into a signed infinity
(or NaN for 0/0) with a runtime warning, never an exception. -/
def pyDiv : PyVal → PyVal → PyVal
  | .nan, _ => .nan
  | _, .nan => .nan
  | .val a, .val b =>
      if b = 0 then (if 0 < a then .inf else if a < 0 then .ninf else .nan)
      else .val (a / b)
  | .inf, .val b => if b < 0 then .ninf else .inf
  | .ninf, .val b => if b < 0 then .inf else .ninf
  | .val _, .inf => .val 0
  | .val _, .ninf => .val 0
  | .inf, .inf => .nan
  | .inf, .ninf => .nan
  | .ninf, .inf => .nan
  | .ninf, .ninf => .nan

/-- CPython two-argument `max(a, b)`: starts from `a` and replaces it by `b`
only when `b > a`. -/
def pyMax (a b : PyVal) : PyVal := if pyGt b a then b else a

/-- CPython two-argument `min(a, b)`: starts from `a` and replaces it by `b`
only when `b < a`. -/
def pyMin (a b : PyVal) : PyVal := if pyLt b a then b else a

/-- Closed verdict enumeration of the mutual-fund classifier; the source
returns the strings "✅ Good", "🟡 Average", "🔴 Poor". -/
inductive Verdict where
  | good
  | average
  | poor
  deriving DecidableEq, Repr

/-- Metric tags the classifier `mf_verdict` recognizes (the tags the app
passes it at the call sites building the fund table). -/
def MF_METRICS : List String :=
  ["1Y CAGR", "3Y CAGR", "Volatility", "Sharpe Ratio", "Max Drawdown"]

/-- Embedding of `mf_verdict(metric, value)` (source lines 239-270).  Each
`if metric ...` block returns in all of its branches, so the sequential
`if`s behave as an else-if chain; a metric outside the four blocks falls
off the end of the Python function, which returns `None` — modelled as
`none`.  The threshold comparisons follow IEEE float semantics via `pyGt`
etc., so a NaN value fails every comparison. -/
def mf_verdict (metric : String) (value : PyVal) : Option Verdict :=
  if metric = "1Y CAGR" ∨ metric = "3Y CAGR" then
    if pyGt value (.val (12/100)) then some .good
    else if pyGe value (.val (8/100)) then some .average
    else some .poor
  else if metric = "Volatility" then
    if pyLt value (.val (15/100)) then some .good
    else if pyLe value (.val (20/100)) then some .average
    else some .poor
  else if metric = "Sharpe Ratio" then
    if pyGt value (.val 1) then some .good
    else if pyGe value (.val (1/2)) then some .average
    else some .poor
  else if metric = "Max Drawdown" then
    if pyGt value (.val (-(25/100))) then some .good
    else if pyGe value (.val (-(40/100))) then some .average
    else some .poor
  else none

/-- One entry of the `METRIC_INFO` table (source lines 32-58): key into the
metric dictionaries, display label, directionality (`inverse = true` means
lower-is-better), and the human-readable band text. -/
structure MetricDef where
  key : String
  label : String
  inverse : Bool
  range : String
  deriving DecidableEq, Repr

/-- The `METRIC_INFO` table, in source order. -/
def METRIC_INFO : List MetricDef :=
  [ ⟨"pe", "P/E Ratio", true, "<15 Cheap | 15–25 Fair | >25 Expensive"⟩,
    ⟨"roe", "ROE", false, "<10% Weak | 10–15% Avg | >15% Strong"⟩,
    ⟨"margin", "Operating Margin", false, "<10% Weak | 10–20% Healthy | >20% Strong"⟩,
    ⟨"rev_growth", "Revenue Growth", false, "<5% Low | 5–12% Moderate | >12% High"⟩,
    ⟨"de", "Debt / Equity", true, "<0.5 Safe | 0.5–1 Acceptable | >1 Risky"⟩ ]

/-- A MetricSet: a mapping from metric key to an optional numeric value
(`dict.get` returns `None` for a missing field). -/
abbrev MetricSet : Type := String → Option ℚ

/-- One row of the comparison table built by `build_comparison`. -/
structure CompRow where
  metric : String
  stock : Option ℚ
  sectorAvg : Option ℚ
  interp : String
  verdict : String
  deriving DecidableEq, Repr

/-- The `better` flag of the comparison loop body (source lines 140, 159):
`s < sec` for a lower-is-better metric, `s > sec` otherwise. -/
def betterFlag (meta : MetricDef) (s sec : ℚ) : Bool :=
  if meta.inverse then decide (s < sec) else decide (s > sec)

/-- One iteration of the `build_comparison` loop (source lines 135-149):
if either value is missing the verdict is the em-dash, otherwise `better`
is rendered "Better"/"Worse". -/
def comparisonRow (stock sector : MetricSet) (meta : MetricDef) : CompRow :=
  match stock meta.key, sector meta.key with
  | some s, some sec =>
      { metric := meta.label, stock := some s, sectorAvg := some sec,
        interp := meta.range,
        verdict := if betterFlag meta s sec then "Better" else "Worse" }
  | s?, sec? =>
      { metric := meta.label, stock := s?, sectorAvg := sec?,
        interp := meta.range, verdict := "—" }

/-- Embedding of `build_comparison(stock, sector)` (source lines 133-150):
one row per `METRIC_INFO` entry, in order. -/
def build_comparison (stock sector : MetricSet) : List CompRow :=
  METRIC_INFO.map (comparisonRow stock sector)

/-- Membership test of a metric in the positives ("Strengths") group of
`why_this_stock` (source lines 155-160): both values present and `better`
true; the source's `continue` on a missing value is the `false` branch. -/
def positiveFlag (stock sector : MetricSet) (meta : MetricDef) : Bool :=
  match stock meta.key, sector meta.key with
  | some s, some sec => betterFlag meta s sec
  | _, _ => false

/-- Membership test in the negatives ("Weaknesses") group: both values
present and `better` false. -/
def negativeFlag (stock sector : MetricSet) (meta : MetricDef) : Bool :=
  match stock meta.key, sector meta.key with
  | some s, some sec => !betterFlag meta s sec
  | _, _ => false

/-- The positives group of `why_this_stock`, in table order.  The source
builds `positives`/`negatives` in a single pass appending each comparable
label to exactly one group; the filter/map produces the same list. -/
def why_positives (stock sector : MetricSet) : List String :=
  (METRIC_INFO.filter (positiveFlag stock sector)).map fun meta => meta.label

/-- The negatives group of `why_this_stock`, in table order. -/
def why_negatives (stock sector : MetricSet) : List String :=
  (METRIC_INFO.filter (negativeFlag stock sector)).map fun meta => meta.label

/-- Embedding of the narrative summary returned by `why_this_stock`
(source lines 162-170). -/
def why_this_stock (stock sector : MetricSet) : String :=
  let positives := why_positives stock sector
  let negatives := why_negatives stock sector
  if positives = [] ∧ negatives = [] then
    "The stock performs broadly in line with sector peers."
  else
    String.intercalate " "
      ((if positives = [] then []
        else ["Strengths: " ++ String.intercalate ", " positives ++ "."]) ++
       (if negatives = [] then []
        else ["Weaknesses: " ++ String.intercalate ", " negatives ++ "."]))

/-- Embedding of the equity expected-return block (source lines 210-217):
`rev = stock_metrics.get("rev_growth") or 0` etc. (`None or 0` is `0`, and
`0.0 or 0` is also `0`, the same rational), a 0.03 bonus when ROE > 0.15,
a 0.02 penalty when debt/equity > 1, no clamping. -/
def expected_return_stock (stock_metrics : MetricSet) : ℚ :=
  let rev := (stock_metrics "rev_growth").getD 0
  let roe := (stock_metrics "roe").getD 0
  let de := (stock_metrics "de").getD 0
  let roe_bonus : ℚ := if roe > 15/100 then 3/100 else 0
  let de_penalty : ℚ := if de > 1 then 2/100 else 0
  rev + roe_bonus - de_penalty

/-- Embedding of `nav_df["nav"].pct_change()` on the date-ordered NAV
column: period-over-period fractional change.  pandas additionally keeps a
leading NaN that `.mean()` / `.std()` skip, so it is dropped here; NAVs
are assumed nonzero where a quotient is taken (the claims evaluate only
positive NAV series). -/
def pct_change : List ℚ → List ℚ
  | [] => []
  | [_] => []
  | a :: b :: rest => (b / a - 1) :: pct_change (b :: rest)

/-- pandas `.mean()`: NaN (here `none`) on an empty series. -/
def seriesMean (xs : List ℚ) : Option ℚ :=
  if xs.length = 0 then none else some (xs.sum / (xs.length : ℚ))

/-- Sample variance matching pandas `.std()` with its default `ddof = 1`
(squared): NaN (`none`) with fewer than 2 observations. -/
def sampleVar (xs : List ℚ) : Option ℚ :=
  match seriesMean xs with
  | none => none
  | some m =>
      if xs.length < 2 then none
      else some ((xs.map fun x => (x - m) ^ 2).sum / ((xs.length : ℚ) - 1))

/-- Result of the Sharpe computation.  `finite num den2` stands for the
real number `num / Real.sqrt den2` with `den2 > 0` (ℚ is not closed under
square roots, so the finite case is kept symbolic); the special values
model what numpy division produces. -/
inductive SharpeVal where
  | finite (num den2 : ℚ)
  | inf
  | ninf
  | nan
  deriving DecidableEq, Repr

/-- Embedding of source lines 295-296:
`volatility = returns.std() * sqrt(252)` and
`sharpe = (returns.mean() * 252) / volatility`.
The annualized volatility is `sqrt(252 * var)`, which is zero exactly when
the sample variance is zero; in that case numpy's division by `0.0` yields
`inf`, `-inf` or `nan` by the sign of the numerator `mean * 252`.  With
fewer than 2 return observations the std is NaN and so is the quotient.
In the positive-variance case the value `mean*252 / sqrt(252*var)` is kept
symbolically as `finite (mean * 252) (252 * var)`. -/
def sharpe_py (navs : List ℚ) : SharpeVal :=
  let rs := pct_change navs
  match seriesMean rs, sampleVar rs with
  | some m, some v =>
      if v = 0 then
        if 0 < m then .inf else if m < 0 then .ninf else .nan
      else .finite (m * 252) (252 * v)
  | _, _ => .nan

/-- A NAV series: (date, nav) pairs; dates are integer day numbers and the
series is used in ascending date order (the source sorts it upstream at
line 285). -/
abbrev NavSeries : Type := List (ℤ × ℚ)

/-- pandas `nav_df["date"].max()` over a nonempty frame (an empty frame
would make the source crash on `iloc` before this matters). -/
def maxDate (s : NavSeries) : ℤ :=
  match s.map Prod.fst with
  | [] => 0
  | d :: ds => ds.foldl max d

/-- The row filter `nav_df[nav_df["date"] >= cutoff]`, keeping order. -/
def windowFilter (s : NavSeries) (cutoff : ℤ) : NavSeries :=
  s.filter fun p => decide (cutoff ≤ p.1)

/-- Embedding of source lines 289, 292:
`nav_1y = nav_df[date >= date.max() - DateOffset(years=1)]` and
`cagr_1y = nav_1y["nav"].iloc[-1] / nav_1y["nav"].iloc[0] - 1`.
`DateOffset(years=1)` is modelled as 365 days.  `none` models the
`IndexError` that `iloc` would raise on an empty window (unreachable for
a nonempty frame, whose max-date row always passes the filter). -/
def cagr_1y (s : NavSeries) : Option PyVal :=
  match (windowFilter s (maxDate s - 365)).head?, (windowFilter s (maxDate s - 365)).getLast? with
  | some f, some l => some (pySub (pyDiv (.val l.2) (.val f.2)) (.val 1))
  | _, _ => none

/-- Result of the 3-year CAGR.  `rpow13m1 r` stands for the real number
`r ^ (1/3) - 1` with `r ≥ 0` (kept symbolic: ℚ is not closed under cube
roots); `inf` and `nan` model the float specials: C99 `pow` gives
`pow(+inf, 1/3) = +inf` and `pow(-inf, 1/3) = +inf`, and numpy gives NaN
for a fractional power of a negative finite base. -/
inductive Cagr3Val where
  | rpow13m1 (r : ℚ)
  | inf
  | nan
  deriving DecidableEq, Repr

/-- Embedding of source lines 290, 293:
`nav_3y = nav_df[date >= date.max() - DateOffset(years=3)]` and
`cagr_3y = (nav_3y["nav"].iloc[-1] / nav_3y["nav"].iloc[0]) ** (1/3) - 1`,
with `DateOffset(years=3)` modelled as 1095 days. -/
def cagr_3y (s : NavSeries) : Option Cagr3Val :=
  match (windowFilter s (maxDate s - 3 * 365)).head?, (windowFilter s (maxDate s - 3 * 365)).getLast? with
  | some f, some l =>
      some (match pyDiv (.val l.2) (.val f.2) with
            | .val r => if r < 0 then .nan else .rpow13m1 r
            | .inf => .inf
            | .ninf => .inf
            | .nan => .nan)
  | _, _ => none

/-- Helper for pandas `.cummax()`: running maxima given the maximum `m` of
the elements already consumed. -/
def cummaxAux (m : ℚ) : List ℚ → List ℚ
  | [] => []
  | x :: xs => max m x :: cummaxAux (max m x) xs

/-- pandas `nav_df["nav"].cummax()`. -/
def cummax : List ℚ → List ℚ
  | [] => []
  | x :: xs => x :: cummaxAux x xs

/-- The drawdown series `nav / nav.cummax() - 1` of source line 297. -/
def drawdowns (navs : List ℚ) : List ℚ :=
  (navs.zip (cummax navs)).map fun p => p.1 / p.2 - 1

/-- pandas `.min()` over a series: `none` on an empty series, otherwise a
fold of binary min over the elements. -/
def seriesMin : List ℚ → Option ℚ
  | [] => none
  | x :: xs => some (xs.foldl min x)

/-- Embedding of source line 297:
`max_dd = (nav_df["nav"] / nav_df["nav"].cummax() - 1).min()`. -/
def max_dd (navs : List ℚ) : Option ℚ := seriesMin (drawdowns navs)

/-- Embedding of source line 300: `sharpe_adj = min(max(sharpe, 0.5), 1.2)`
with CPython two-argument `min`/`max` on floats. -/
def sharpe_adj (sharpe : PyVal) : PyVal :=
  pyMin (pyMax sharpe (.val (1/2))) (.val (6/5))

/-- Embedding of source line 301: `expected_return_mf = cagr_3y * sharpe_adj`,
as a function of the two metric values computed at lines 293 and 296. -/
def expected_return_mf (cagr3 sharpe : PyVal) : PyVal :=
  pyMul cagr3 (sharpe_adj sharpe)

/-- C1: the spec requires the Sharpe computation to guard its division by
zero volatility and signal "undefined"; the code has no guard.  On a flat
NAV series the period returns are all 0 (mean 0, std 0) and numpy's
`0.0 / 0.0` yields NaN; on a constant-positive-return series (here +10%
per period) the std is 0 while the mean is positive, and the division
yields +infinity — exactly the infinity the claim rules out.  Both values
then flow on to the verdict table as ordinary numbers. -/
theorem C1_sharpe_zero_volatility :
    sharpe_py [100, 100, 100] = SharpeVal.nan ∧
    sharpe_py [100, 110, 121] = SharpeVal.inf := by
  constructor <;> norm_num [sharpe_py, pct_change, seriesMean, sampleVar]

/-- C2: the spec requires an undefined/NaN metric value to short-circuit
the classifier to a distinguishable "no verdict"; instead a NaN value
fails every threshold comparison (IEEE semantics) and falls through the
band `if`s to the final `else` of each recognized category, producing the
band verdict "🔴 Poor" — never a "no verdict" result. -/
theorem C2_nan_value_classified_poor :
    mf_verdict "1Y CAGR" .nan = some .poor ∧
    mf_verdict "3Y CAGR" .nan = some .poor ∧
    mf_verdict "Volatility" .nan = some .poor ∧
    mf_verdict "Sharpe Ratio" .nan = some .poor ∧
    mf_verdict "Max Drawdown" .nan = some .poor := by
  refine ⟨?_, ?_, ?_, ?_, ?_⟩ <;> simp [mf_verdict, pyGt, pyGe, pyLe, pyLt, pyEq]

/-- C3 counterexample: called with a category tag outside the recognized
set, `mf_verdict` does not fail with a fatal error — the Python function
falls off its end and returns the value `None` (modelled `none`) to its
caller, i.e. it returns normally. -/
theorem C3_counterexample_unknown_tag_returns :
    mf_verdict "P/E Ratio" (.val 1) = none := by
  simp [mf_verdict]

/-- C3 (amended): for every recognized metric category tag and every
defined (finite) numeric value the classifier returns exactly one element
of the closed enumeration {Good, Average, Poor}; for a category tag
outside the recognized set it returns no verdict (Python `None`) rather
than failing with a fatal error. -/
theorem C3_verdict_closed_enumeration :
    (∀ metric, metric ∈ MF_METRICS → ∀ q : ℚ,
      mf_verdict metric (.val q) = some .good ∨
      mf_verdict metric (.val q) = some .average ∨
      mf_verdict metric (.val q) = some .poor) ∧
    (∀ metric, metric ∉ MF_METRICS → ∀ v, mf_verdict metric v = none) := by
  constructor
  · intro metric hm q
    simp only [MF_METRICS, List.mem_cons, List.not_mem_nil, or_false] at hm
    rcases hm with rfl | rfl | rfl | rfl | rfl <;>
      · simp only [mf_verdict]
        norm_num
        split_ifs <;> simp_all
  · intro metric hm v
    simp only [MF_METRICS, List.mem_cons, List.not_mem_nil, or_false, not_or] at hm
    obtain ⟨h1, h2, h3, h4, h5⟩ := hm
    simp [mf_verdict, h1, h2, h3, h4, h5]

/-- C3 witness: the classifier at the concrete recognized input
("Volatility", 0.14) lands in the closed enumeration. -/
theorem C3_verdict_closed_enumeration_witness :
    mf_verdict "Volatility" (.val (14/100)) = some .good ∨
    mf_verdict "Volatility" (.val (14/100)) = some .average ∨
    mf_verdict "Volatility" (.val (14/100)) = some .poor :=
  C3_verdict_closed_enumeration.1 "Volatility" (by simp [MF_METRICS]) (14/100)

/-- Helper: NaN absorbs on the left of float multiplication. -/
theorem pyMul_nan_left (v : PyVal) : pyMul .nan v = .nan := by
  cases v <;> rfl

/-- Helper: CPython `max` on two finite floats agrees with the order max. -/
theorem pyMax_val (a b : ℚ) : pyMax (.val a) (.val b) = .val (max a b) := by
  simp only [pyMax, pyGt, pyLt]
  rcases lt_or_le a b with h | h
  · rw [if_pos (decide_eq_true h), max_eq_right h.le]
  · rw [if_neg (by simpa using not_lt.mpr h), max_eq_left h]

/-- Helper: CPython `min` on two finite floats agrees with the order min. -/
theorem pyMin_val (a b : ℚ) : pyMin (.val a) (.val b) = .val (min a b) := by
  simp only [pyMin, pyLt]
  rcases lt_or_le b a with h | h
  · rw [if_pos (decide_eq_true h), min_eq_right h.le]
  · rw [if_neg (by simpa using not_lt.mpr h), min_eq_left h]

/-- C8: the fund expected return is the 3-year CAGR times the Sharpe value
clamped (via CPython `min`/`max`) into [0.5, 1.2]; an undefined (NaN)
3-year CAGR or Sharpe propagates to a NaN expected return — it is never
silently replaced by a number such as zero. -/
theorem C8_expected_return_mf_spec :
    (∀ c s : ℚ,
      expected_return_mf (.val c) (.val s) = .val (c * min (max s (1/2)) (6/5)) ∧
      (1/2 : ℚ) ≤ min (max s (1/2)) (6/5) ∧ min (max s (1/2)) (6/5) ≤ 6/5) ∧
    (∀ v, expected_return_mf PyVal.nan v = PyVal.nan ∧
          expected_return_mf v PyVal.nan = PyVal.nan) := by
  constructor
  · intro c s
    refine ⟨?_, le_min (le_max_right _ _) (by norm_num), min_le_right _ _⟩
    have hadj : sharpe_adj (.val s) = .val (min (max s (1/2)) (6/5)) := by
      rw [sharpe_adj, pyMax_val, pyMin_val]
    show pyMul (.val c) (sharpe_adj (.val s)) = _
    rw [hadj]
    rfl
  · intro v
    refine ⟨pyMul_nan_left _, ?_⟩
    show pyMul v (sharpe_adj .nan) = .nan
    have hnan : sharpe_adj .nan = .nan := rfl
    rw [hnan]
    cases v <;> rfl

/-- C9: the equity expected return is revenue growth plus a 0.03 bonus
exactly when ROE > 0.15 minus a 0.02 penalty exactly when debt/equity > 1;
at the spec's example (rev growth 0.08, ROE 0.20, D/E 1.5) it is exactly
0.09, and without clamping the result can be negative. -/
theorem C9_expected_return_stock_formula :
    (∀ rev roe de : ℚ,
      expected_return_stock (fun k =>
        if k = "rev_growth" then some rev
        else if k = "roe" then some roe
        else if k = "de" then some de else none) =
        rev + (if roe > 15/100 then 3/100 else 0) - (if de > 1 then 2/100 else 0)) ∧
    expected_return_stock (fun k =>
      if k = "rev_growth" then some (8/100)
      else if k = "roe" then some (20/100)
      else if k = "de" then some (3/2) else none) = 9/100 ∧
    expected_return_stock (fun k =>
      if k = "rev_growth" then some (-(1/10))
      else if k = "roe" then some 0
      else if k = "de" then some 2 else none) < 0 := by
  refine ⟨?_, ?_, ?_⟩
  · intro rev roe de
    simp [expected_return_stock]
  · simp [expected_return_stock]
    norm_num
  · simp [expected_return_stock]
    norm_num

/-- C10: the equity expected-return computation is total over partial
inputs: each of the three fields defaults to 0 when absent, so an absent
ROE never triggers the bonus, an absent debt/equity never triggers the
penalty, and with all three fields absent the result is exactly 0 (the
codomain is numeric: no undefined marker exists on this path). -/
theorem C10_expected_return_stock_defaults :
    ∀ stock_metrics : MetricSet,
      (stock_metrics "roe" = none →
        expected_return_stock stock_metrics =
          (stock_metrics "rev_growth").getD 0 -
            (if (stock_metrics "de").getD 0 > 1 then 2/100 else 0)) ∧
      (stock_metrics "de" = none →
        expected_return_stock stock_metrics =
          (stock_metrics "rev_growth").getD 0 +
            (if (stock_metrics "roe").getD 0 > 15/100 then 3/100 else 0)) ∧
      (stock_metrics "rev_growth" = none ∧ stock_metrics "roe" = none ∧
          stock_metrics "de" = none →
        expected_return_stock stock_metrics = 0) := by
  intro stock_metrics
  refine ⟨?_, ?_, ?_⟩
  · intro h
    norm_num [expected_return_stock, h]
  · intro h
    norm_num [expected_return_stock, h]
  · rintro ⟨h1, h2, h3⟩
    norm_num [expected_return_stock, h1, h2, h3]

/-- C10 witness: with every metric absent the equity expected return is 0. -/
theorem C10_expected_return_stock_defaults_witness :
    expected_return_stock (fun _ => none) = 0 :=
  (C10_expected_return_stock_defaults (fun _ => none)).2.2 ⟨rfl, rfl, rfl⟩

/-- Helper: `cagr_1y` unfolded at a window with known boundary rows. -/
theorem cagr_1y_eq_of_bounds (s : NavSeries) (f l : ℤ × ℚ)
    (hf : (windowFilter s (maxDate s - 365)).head? = some f)
    (hl : (windowFilter s (maxDate s - 365)).getLast? = some l) :
    cagr_1y s = some (pySub (pyDiv (.val l.2) (.val f.2)) (.val 1)) := by
  unfold cagr_1y
  rw [hf, hl]

/-- C4 counterexample: for the two-point series with dates 0 and 1096 (the
last 3 years apart from the first) the 1-year window holds exactly one
point — fewer than 2 — yet the windowed CAGR is the ordinary number 0
(the single point is both `iloc[0]` and `iloc[-1]`), not an
undefined/NaN signal as the claim requires. -/
theorem C4_counterexample_single_point_window :
    (windowFilter [((0:ℤ), (100:ℚ)), (1096, 120)]
      (maxDate [((0:ℤ), (100:ℚ)), (1096, 120)] - 365)).length = 1 ∧
    cagr_1y [((0:ℤ), (100:ℚ)), (1096, 120)] = some (.val 0) := by
  constructor <;> norm_num [cagr_1y, windowFilter, maxDate, List.filter, pySub, pyDiv]

/-- C4 (amended): on the window of dates ≥ max date − window, the 1-year
CAGR is `last/first − 1` (0.20 exactly on the spec's 100 → 120 example)
and the 3-year CAGR is `(last/first)^(1/3) − 1` (the cube root kept
symbolic by `Cagr3Val.rpow13m1`), whenever the window's first value is
nonzero (and the ratio nonnegative for the cube root).  The failure
behavior differs from the claim: a window with exactly one (nonzero)
point yields 0, and a zero first value with positive last value yields
+infinity — neither is an undefined/NaN signal. -/
theorem C4_cagr_windows :
    cagr_1y [((0:ℤ), (100:ℚ)), (365, 120)] = some (.val (1/5)) ∧
    (∀ (s : NavSeries) (f l : ℤ × ℚ),
      (windowFilter s (maxDate s - 365)).head? = some f →
      (windowFilter s (maxDate s - 365)).getLast? = some l →
      f.2 ≠ 0 → cagr_1y s = some (.val (l.2 / f.2 - 1))) ∧
    (∀ (s : NavSeries) (f l : ℤ × ℚ),
      (windowFilter s (maxDate s - 3 * 365)).head? = some f →
      (windowFilter s (maxDate s - 3 * 365)).getLast? = some l →
      f.2 ≠ 0 → 0 ≤ l.2 / f.2 → cagr_3y s = some (.rpow13m1 (l.2 / f.2))) ∧
    (∀ (s : NavSeries) (f : ℤ × ℚ),
      windowFilter s (maxDate s - 365) = [f] → f.2 ≠ 0 →
      cagr_1y s = some (.val 0)) ∧
    (∀ (s : NavSeries) (f l : ℤ × ℚ),
      (windowFilter s (maxDate s - 365)).head? = some f →
      (windowFilter s (maxDate s - 365)).getLast? = some l →
      f.2 = 0 → 0 < l.2 → cagr_1y s = some PyVal.inf) := by
  refine ⟨?_, ?_, ?_, ?_, ?_⟩
  · norm_num [cagr_1y, windowFilter, maxDate, List.filter, pySub, pyDiv]
  · intro s f l hf hl hf0
    rw [cagr_1y_eq_of_bounds s f l hf hl]
    simp [pyDiv, pySub, hf0]
  · intro s f l hf hl hf0 hr
    unfold cagr_3y
    rw [hf, hl]
    simp [pyDiv, hf0, not_lt.mpr hr]
  · intro s f hw hf0
    have hf : (windowFilter s (maxDate s - 365)).head? = some f := by rw [hw]; rfl
    have hl : (windowFilter s (maxDate s - 365)).getLast? = some f := by rw [hw]; rfl
    rw [cagr_1y_eq_of_bounds s f f hf hl]
    simp [pyDiv, pySub, hf0, div_self hf0]
  · intro s f l hf hl hf0 hl0
    rw [cagr_1y_eq_of_bounds s f l hf hl]
    simp [pyDiv, pySub, hf0, hl0]

/-- C4 witness: the amended 1-year formula at the spec's concrete example
(start 100, end 120, one year apart) evaluates to 120/100 − 1 = 0.20. -/
theorem C4_cagr_windows_witness :
    cagr_1y [((0:ℤ), (100:ℚ)), (365, 120)] = some (.val ((120:ℚ) / 100 - 1)) :=
  C4_cagr_windows.2.1 [((0:ℤ), (100:ℚ)), (365, 120)] (0, 100) (365, 120)
    (by norm_num [windowFilter, maxDate, List.filter])
    (by norm_num [windowFilter, maxDate, List.filter])
    (by norm_num)

/-- Helper: the comparison row of a metric whose two values are present. -/
theorem comparisonRow_both_present (stock sector : MetricSet) (meta : MetricDef)
    (s sec : ℚ) (hs : stock meta.key = some s) (hsec : sector meta.key = some sec) :
    comparisonRow stock sector meta =
      { metric := meta.label, stock := some s, sectorAvg := some sec,
        interp := meta.range,
        verdict := if betterFlag meta s sec then "Better" else "Worse" } := by
  unfold comparisonRow
  rw [hs, hsec]

/-- Helper: display labels identify metrics uniquely in `METRIC_INFO`. -/
theorem metric_label_inj :
    ∀ a ∈ METRIC_INFO, ∀ b ∈ METRIC_INFO, a.label = b.label → a = b := by decide

/-- C5: for every metric definition and every pair of present values the
verdict is "Better" exactly when (lower-is-better and s < sec) or
(higher-is-better and s > sec) and "Worse" otherwise; in particular an
exact tie is "Worse" (strict inequality only). -/
theorem C5_comparator_strict_inequality :
    ∀ (stock sector : MetricSet), ∀ meta ∈ METRIC_INFO, ∀ s sec : ℚ,
      stock meta.key = some s → sector meta.key = some sec →
      ({ metric := meta.label, stock := some s, sectorAvg := some sec,
         interp := meta.range,
         verdict := if (meta.inverse = true ∧ s < sec) ∨ (meta.inverse = false ∧ sec < s)
                    then "Better" else "Worse" } : CompRow) ∈ build_comparison stock sector ∧
      (s = sec →
        ({ metric := meta.label, stock := some s, sectorAvg := some sec,
           interp := meta.range, verdict := "Worse" } : CompRow)
          ∈ build_comparison stock sector) := by
  intro stock sector meta hmeta s sec hs hsec
  have hrow := comparisonRow_both_present stock sector meta s sec hs hsec
  constructor
  · have hv : (if betterFlag meta s sec then "Better" else "Worse")
        = (if (meta.inverse = true ∧ s < sec) ∨ (meta.inverse = false ∧ sec < s)
           then "Better" else "Worse") := by
      cases hinv : meta.inverse <;> simp [betterFlag, hinv]
    refine List.mem_map.mpr ⟨meta, hmeta, ?_⟩
    rw [hrow, hv]
  · rintro rfl
    refine List.mem_map.mpr ⟨meta, hmeta, ?_⟩
    rw [hrow]
    have hv : betterFlag meta s s = false := by
      cases hinv : meta.inverse <;> simp [betterFlag, hinv]
    rw [hv]
    rfl

/-- C5 witness: the tie rule at the concrete lower-is-better P/E metric
with subject = baseline = 10 yields the "Worse" row. -/
theorem C5_comparator_strict_inequality_witness :
    ({ metric := "P/E Ratio", stock := some 10, sectorAvg := some 10,
       interp := "<15 Cheap | 15–25 Fair | >25 Expensive",
       verdict := "Worse" } : CompRow) ∈
      build_comparison (fun k => if k = "pe" then some 10 else none)
        (fun k => if k = "pe" then some 10 else none) :=
  (C5_comparator_strict_inequality
    (fun k => if k = "pe" then some 10 else none)
    (fun k => if k = "pe" then some 10 else none)
    ⟨"pe", "P/E Ratio", true, "<15 Cheap | 15–25 Fair | >25 Expensive"⟩
    (by simp [METRIC_INFO]) 10 10 rfl rfl).2 rfl

/-- Helper: a metric with a missing subject value is in neither narrative
group. -/
theorem positiveFlag_none_left (stock sector : MetricSet) (meta : MetricDef)
    (h : stock meta.key = none) : positiveFlag stock sector meta = false := by
  unfold positiveFlag
  rw [h]

/-- Helper: a metric with a missing baseline value is in neither narrative
group. -/
theorem positiveFlag_none_right (stock sector : MetricSet) (meta : MetricDef)
    (h : sector meta.key = none) : positiveFlag stock sector meta = false := by
  unfold positiveFlag
  rw [h]
  cases stock meta.key <;> rfl

/-- Helper: `negativeFlag` with a missing subject value. -/
theorem negativeFlag_none_left (stock sector : MetricSet) (meta : MetricDef)
    (h : stock meta.key = none) : negativeFlag stock sector meta = false := by
  unfold negativeFlag
  rw [h]

/-- Helper: `negativeFlag` with a missing baseline value. -/
theorem negativeFlag_none_right (stock sector : MetricSet) (meta : MetricDef)
    (h : sector meta.key = none) : negativeFlag stock sector meta = false := by
  unfold negativeFlag
  rw [h]
  cases stock meta.key <;> rfl

/-- C6: a metric whose subject or baseline value is absent gets the
verdict "—" in its comparison row (same position as in `METRIC_INFO`),
with no directional comparison, and its label appears in neither the
positives nor the negatives group of the narrative summary. -/
theorem C6_missing_value_unknown :
    ∀ (stock sector : MetricSet) (i : ℕ) (meta : MetricDef),
      METRIC_INFO[i]? = some meta →
      stock meta.key = none ∨ sector meta.key = none →
      (∃ row, (build_comparison stock sector)[i]? = some row ∧ row.verdict = "—") ∧
      meta.label ∉ why_positives stock sector ∧
      meta.label ∉ why_negatives stock sector := by
  intro stock sector i meta hi hmiss
  have hmem : meta ∈ METRIC_INFO := List.getElem?_mem hi
  refine ⟨⟨comparisonRow stock sector meta, ?_, ?_⟩, ?_, ?_⟩
  · rw [build_comparison, List.getElem?_map, hi]
    rfl
  · unfold comparisonRow
    rcases hmiss with h | h
    · rw [h]
    · rw [h]
      cases stock meta.key <;> rfl
  · intro hlab
    obtain ⟨meta', hmf, hlab'⟩ := List.mem_map.mp hlab
    obtain ⟨hmi', hp⟩ := List.mem_filter.mp hmf
    have heq : meta' = meta := metric_label_inj meta' hmi' meta hmem hlab'
    subst heq
    rcases hmiss with h | h
    · rw [positiveFlag_none_left stock sector meta' h] at hp
      exact Bool.false_ne_true hp
    · rw [positiveFlag_none_right stock sector meta' h] at hp
      exact Bool.false_ne_true hp
  · intro hlab
    obtain ⟨meta', hmf, hlab'⟩ := List.mem_map.mp hlab
    obtain ⟨hmi', hp⟩ := List.mem_filter.mp hmf
    have heq : meta' = meta := metric_label_inj meta' hmi' meta hmem hlab'
    subst heq
    rcases hmiss with h | h
    · rw [negativeFlag_none_left stock sector meta' h] at hp
      exact Bool.false_ne_true hp
    · rw [negativeFlag_none_right stock sector meta' h] at hp
      exact Bool.false_ne_true hp

/-- C6 witness: with the P/E subject value absent, the first comparison
row is "—" and "P/E Ratio" is in neither narrative group. -/
theorem C6_missing_value_unknown_witness :
    (∃ row, (build_comparison (fun _ => none) (fun _ => some 1))[0]? = some row ∧
      row.verdict = "—") ∧
    "P/E Ratio" ∉ why_positives (fun _ => none) (fun _ => some 1) ∧
    "P/E Ratio" ∉ why_negatives (fun _ => none) (fun _ => some 1) :=
  C6_missing_value_unknown (fun _ => none) (fun _ => some 1) 0
    ⟨"pe", "P/E Ratio", true, "<15 Cheap | 15–25 Fair | >25 Expensive"⟩
    rfl (Or.inl rfl)

/-- Helper: a min-fold never exceeds its initial value. -/
theorem foldl_min_le_init (l : List ℚ) : ∀ x : ℚ, l.foldl min x ≤ x := by
  induction l with
  | nil => intro x; simp
  | cons y l ih =>
      intro x
      calc (y :: l).foldl min x = l.foldl min (min x y) := by rw [List.foldl_cons]
        _ ≤ min x y := ih (min x y)
        _ ≤ x := min_le_left x y

/-- Helper: a min-fold over zeros starting at zero is zero. -/
theorem foldl_min_zeros (l : List ℚ) (h : ∀ y ∈ l, y = 0) : l.foldl min 0 = 0 := by
  induction l with
  | nil => rfl
  | cons y l ih =>
      have hy : y = 0 := h y (by simp)
      rw [List.foldl_cons, hy, min_self]
      exact ih fun z hz => h z (List.mem_cons_of_mem y hz)

/-- Helper: on a chain-nondecreasing tail the running maximum is the
element itself. -/
theorem cummaxAux_of_chain :
    ∀ (xs : List ℚ) (m : ℚ), List.Chain (· ≤ ·) m xs → cummaxAux m xs = xs := by
  intro xs
  induction xs with
  | nil => intro m _; rfl
  | cons x xs ih =>
      intro m hch
      rcases hch with _ | ⟨hmx, hch⟩
      rw [cummaxAux, max_eq_right hmx, ih x hch]

/-- Helper: the drawdown map over a self-zip. -/
theorem zip_self_drawdown (l : List ℚ) :
    ((l.zip l).map fun p => p.1 / p.2 - 1) = l.map fun x => x / x - 1 := by
  induction l with
  | nil => rfl
  | cons x l ih => simp [ih]

/-- C7: for every nonempty positive price/NAV series the max drawdown is
the minimum over all points of price/running-max − 1; it is always ≤ 0,
and on a monotonically non-decreasing (hence also flat) series it is
exactly 0.  On the spec's example [100,120,90,95,150,100] it is exactly
−1/3 (−0.3333 within tolerance). -/
theorem C7_max_dd_spec :
    (∀ navs : List ℚ, navs ≠ [] → (∀ x ∈ navs, 0 < x) →
      ∃ m, max_dd navs = some m ∧ m ≤ 0 ∧ (navs.Chain' (· ≤ ·) → m = 0)) ∧
    max_dd [100, 120, 90, 95, 150, 100] = some (-(1/3)) := by
  constructor
  · intro navs hne hpos
    obtain ⟨a, rest, rfl⟩ := List.exists_cons_of_ne_nil hne
    have ha : (0:ℚ) < a := hpos a (by simp)
    have hdd : drawdowns (a :: rest) =
        (a / a - 1) :: ((rest.zip (cummaxAux a rest)).map fun p => p.1 / p.2 - 1) := by
      simp [drawdowns, cummax]
    have ha0 : a / a - 1 = 0 := by
      rw [div_self (ne_of_gt ha)]
      ring
    refine ⟨((rest.zip (cummaxAux a rest)).map fun p => p.1 / p.2 - 1).foldl min 0,
      ?_, ?_, ?_⟩
    · rw [max_dd, hdd, ha0]
      rfl
    · exact foldl_min_le_init _ 0
    · intro hch
      have hch' : List.Chain (· ≤ ·) a rest := hch
      rw [cummaxAux_of_chain rest a hch', zip_self_drawdown]
      refine foldl_min_zeros _ ?_
      intro y hy
      obtain ⟨x, hx, rfl⟩ := List.mem_map.mp hy
      have hx0 : (0:ℚ) < x := hpos x (List.mem_cons_of_mem a hx)
      rw [div_self (ne_of_gt hx0)]
      ring
  · norm_num [max_dd, drawdowns, cummax, cummaxAux, seriesMin, List.zip, List.zipWith]

/-- C7 witness: the general part at the concrete one-element series [1]. -/
theorem C7_max_dd_spec_witness :
    ∃ m, max_dd [1] = some m ∧ m ≤ 0 ∧ (([1] : List ℚ).Chain' (· ≤ ·) → m = 0) :=
  C7_max_dd_spec.1 [1] (by simp) (by norm_num)

end StockMF
